import Mathlib

/-!
Shallow embedding of `src/direct/src/plugin/p3dSession.cxx` (class `P3DSession`).

The C++ unit manages one worker subprocess per session: a FIFO queue of
outbound XML command documents, a duplex pipe to the worker, a background
reader thread, and a lock-guarded registry of instances multiplexed onto the
session.  Stateful C++ methods become pure Lean functions threading an
explicit session/world state; heap ownership of documents is tracked by
returning the list of documents freed by each operation; writes to the
outbound pipe are recorded as a trace of documents.  The platform-conditional
code compiles only under `_WIN32`, so the Windows branches are the ones
embedded (with the conditional kept as a `win : Bool` parameter where the
source has an `#ifdef`).  Lock acquire/release pairs have no effect in this
sequential embedding; the snapshot-then-iterate structure they protect is
kept verbatim.
-/

namespace P3D

/-- One outbound XML command document (`TiXmlDocument` holding a `<command>`
element).  `cmd` is the `cmd` attribute; `id` the optional `id` attribute
(set by `terminate_instance`); `xinstance` the optional embedded instance
element (abstracted to the instance identifier it serializes, set by
`start_instance`).  `alloc` is the heap-allocation identity of the document,
used to reason about each allocation being freed exactly once. -/
structure TiXmlDocument where
  cmd : String
  id : Option Nat := none
  xinstance : Option Nat := none
  alloc : Nat := 0
deriving DecidableEq, Repr

/-- The request type posted to an instance; the only constructor used by this
unit is the stop request (`P3D_RT_stop`). -/
inductive P3DRequestType
  | P3D_RT_stop
deriving DecidableEq, Repr

/-- `_python_state` of the session (`PS_init` before the worker is spawned,
`PS_running` afterwards). -/
inductive PState
  | PS_init
  | PS_running
deriving DecidableEq, Repr

/-- A client instance (`P3DInstance`), as visible from this unit: its
identifier, session key, runtime version, back-reference `_session`
(modelled by the owning session's identity token, `none` when unattached),
the list of requests posted to it via `add_request`, and the downloads
started on it via `start_download` (recorded by URL). -/
structure P3DInstance where
  instance_id : Nat
  session_key : String
  python_version : String
  session : Option Nat := none
  requests : List P3DRequestType := []
  downloads : List String := []
deriving DecidableEq, Repr

/-- The mutable state of one `P3DSession`.  `self` is the session's identity
token (the C++ `this` pointer) compared against an instance's `_session`
back-reference.  `commands` is the FIFO `_commands` queue of pending
documents; `pipe_write` is the trace of documents written to the outbound
pipe; `pipe_flushed` records whether everything written so far has been
flushed; `instances` is the registry of attached instance identifiers
(`std::map` keys, guarded by `_instances_lock` in the source). -/
structure P3DSession where
  session_key : String
  python_version : String
  python_root_dir : String
  python_state : PState
  started_read_thread : Bool
  read_thread_continue : Bool
  commands : List TiXmlDocument
  pipe_write : List TiXmlDocument
  pipe_flushed : Bool
  pipe_read_open : Bool
  pipe_write_open : Bool
  instances : List Nat
  output_filename : String
  self : Nat
deriving DecidableEq, Repr

/-- The `P3DSession` constructor: copies key, version and output filename from
the originating instance, fixes the runtime root, starts in `PS_init` with no
read thread, an empty command queue and an empty registry. -/
def newSession (inst : P3DInstance) (output_filename : String) (self : Nat) :
    P3DSession where
  session_key := inst.session_key
  python_version := inst.python_version
  python_root_dir := "C:/p3drun"
  python_state := .PS_init
  started_read_thread := false
  read_thread_continue := false
  commands := []
  pipe_write := []
  pipe_flushed := false
  pipe_read_open := false
  pipe_write_open := false
  instances := []
  output_filename := output_filename
  self := self

/-- `P3DSession::send_command`: if Python is running, write the document to
the outbound pipe, flush, and delete it (it is returned as freed); otherwise
append it to the `_commands` queue (ownership transfers to the queue,
nothing is freed or written). -/
def send_command (command : TiXmlDocument) (s : P3DSession) :
    P3DSession × List TiXmlDocument :=
  if s.python_state = .PS_running then
    ({ s with pipe_write := s.pipe_write ++ [command], pipe_flushed := true },
     [command])
  else
    ({ s with commands := s.commands ++ [command] }, [])

/-- The `keep[]` allow-list of environment variables forwarded to the worker:
`TEMP`, `HOME`, `USER`, and under `_WIN32` also `SYSTEMROOT`. -/
def keepVars (win : Bool) : List String :=
  ["TEMP", "HOME", "USER"] ++ (if win then ["SYSTEMROOT"] else [])

/-- The environment block built by `start_p3dpython` for the child process:
each allow-listed variable copied with its value when `getenv` finds it,
followed by the two always-set variables `PATH` and `PYTHONPATH`, both
pointing at `_python_root_dir`.  The NUL-separated block is modelled as a
list of (name, value) pairs; `cenv` is the controller's environment. -/
def build_env (win : Bool) (cenv : String → Option String) (root : String) :
    List (String × String) :=
  ((keepVars win).filterMap (fun k => (cenv k).map (fun v => (k, v))))
    ++ [("PATH", root), ("PYTHONPATH", root)]

/-- `P3DSession::spawn_read_thread`: sets the continue flag and records that
the read thread has been started.  (The source asserts the flag was clear.) -/
def spawn_read_thread (s : P3DSession) : P3DSession :=
  { s with read_thread_continue := true, started_read_thread := true }

/-- Result of `P3DSession::start_p3dpython`: the updated session, the
environment block handed to `CreateProcess`, the documents freed while
draining the queue, and the diagnostic lines written to `cerr` (only the
process-creation failure report is modelled; pipe-handle diagnostics do not
affect session state). -/
structure SpawnResult where
  sess : P3DSession
  env : List (String × String)
  freed : List TiXmlDocument
  log : List String

/-- `P3DSession::start_p3dpython`: builds the environment, opens the pipe
ends (this happens before the success check in the source), and then — if
`CreateProcess` failed (`created = false`) — reports and returns with the
state, queue and read thread untouched.  On success it sets `PS_running`,
spawns the read thread, writes every queued command to the outbound pipe in
FIFO order (deleting each), flushes once, and clears the queue. -/
def start_p3dpython (created : Bool) (cenv : String → Option String)
    (s : P3DSession) : SpawnResult :=
  let env := build_env true cenv s.python_root_dir
  let s1 := { s with pipe_read_open := true, pipe_write_open := true }
  if !created then
    { sess := s1, env := env, freed := [], log := ["Failed to create process."] }
  else
    let s2 := spawn_read_thread { s1 with python_state := .PS_running }
    { sess := { s2 with
        pipe_write := s2.pipe_write ++ s2.commands
        pipe_flushed := true
        commands := [] }
      env := env
      freed := s.commands
      log := [] }

/-- Result of `P3DSession::join_read_thread`: the updated session and whether
the call actually waited on the thread handle. -/
structure JoinResult where
  sess : P3DSession
  waited : Bool

/-- `P3DSession::join_read_thread`: returns immediately when the read thread
was never started; otherwise clears the continue flag, closes the read pipe
(to unblock a pending read), waits for the thread, and clears the
started flag. -/
def join_read_thread (s : P3DSession) : JoinResult :=
  if !s.started_read_thread then
    { sess := s, waited := false }
  else
    { sess := { s with
        read_thread_continue := false
        pipe_read_open := false
        started_read_thread := false }
      waited := true }

/-- The grace period (milliseconds) the destructor waits for the worker to
exit on its own: `WaitForSingleObject(_p3dpython.hProcess, 2000)`. -/
def grace_period_ms : Nat := 2000

/-- The exit status used to kill a worker that did not exit within the grace
period: `TerminateProcess(_p3dpython.hProcess, 2)`. -/
def forced_exit_code : Nat := 2

/-- Result of the `P3DSession` destructor: the final session state, the
queued documents freed unsent, the exit status forced on the worker (`none`
when the worker exited cooperatively or was never started), the wait limit
applied to the cooperative-exit wait, and whether the read-thread join
actually waited. -/
structure TeardownResult where
  sess : P3DSession
  freed : List TiXmlDocument
  forced_exit : Option Nat
  wait_limit_ms : Nat
  join_waited : Bool

/-- `P3DSession::~P3DSession`: if running, write an `exit` command, flush,
close both pipe ends, wait up to the grace period for the process to exit
(`worker_exits_in_grace` tells whether it did) and forcibly terminate it with
exit status 2 if not.  Then free every still-queued command, clear the queue,
and join the read thread. -/
def destructor (worker_exits_in_grace : Bool) (s : P3DSession) :
    TeardownResult :=
  let exit_doc : TiXmlDocument := { cmd := "exit" }
  let s1 :=
    if s.python_state = .PS_running then
      { s with
        pipe_write := s.pipe_write ++ [exit_doc]
        pipe_flushed := true
        pipe_write_open := false
        pipe_read_open := false }
    else s
  let forced :=
    if s.python_state = .PS_running then
      if worker_exits_in_grace then none else some forced_exit_code
    else none
  let freed := s1.commands
  let j := join_read_thread { s1 with commands := [] }
  { sess := j.sess
    freed := freed
    forced_exit := forced
    wait_limit_ms := if s.python_state = .PS_running then grace_period_ms else 0
    join_waited := j.waited }

/-- A session together with the pool of instance objects it can reference
(the `P3DInstance` objects live outside the session in the source; mutations
of an instance's `_session`, `add_request` and `start_download` act on these
shared objects). -/
structure World where
  sess : P3DSession
  insts : List P3DInstance
deriving DecidableEq, Repr

/-- Dereference an instance pointer: look up the instance object carrying the
given identifier. -/
def findInst (iid : Nat) (insts : List P3DInstance) : Option P3DInstance :=
  insts.find? (fun i => i.instance_id == iid)

/-- Apply a mutation to the instance object carrying the given identifier. -/
def updInst (iid : Nat) (f : P3DInstance → P3DInstance)
    (insts : List P3DInstance) : List P3DInstance :=
  insts.map (fun i => if i.instance_id == iid then f i else i)

/-- `P3DInstance::add_request` with a `P3D_RT_stop` request, as performed by
`rt_terminate` for one registry entry. -/
def postStop (iid : Nat) (insts : List P3DInstance) : List P3DInstance :=
  updInst iid (fun i => { i with requests := i.requests ++ [.P3D_RT_stop] }) insts

/-- The notification sweep of `rt_terminate`: post one stop request to each
identifier in the registry snapshot, in order. -/
def postStopAll (ids : List Nat) (insts : List P3DInstance) :
    List P3DInstance :=
  ids.foldl (fun is j => postStop j is) insts

/-- `P3DSession::rt_terminate`: copy the instance registry (under
`_instances_lock` in the source), release the lock, then post a `P3D_RT_stop`
request to every instance in the copy. -/
def rt_terminate (w : World) : World :=
  let icopy := w.sess.instances
  { w with insts := postStopAll icopy w.insts }

/-- `P3DSession::rt_thread_run`: repeatedly read one XML document from the
inbound pipe.  The sequence of read outcomes observed by the thread is the
`reads` list: `some doc` is a successfully decoded document (which the loop
currently just deletes — dispatching upward is a TODO in the source), `none`
is a read error / end-of-stream, upon which the loop calls `rt_terminate` and
returns.  The result is the final world, the reads left unconsumed when the
loop returned, and the number of times `rt_terminate` was invoked.
Exhausting `reads` models the continue flag having been cleared by the
controller. -/
def rt_thread_run : List (Option TiXmlDocument) → World →
    World × List (Option TiXmlDocument) × Nat
  | [], w => (w, [], 0)
  | none :: rest, w => (rt_terminate w, rest, 1)
  | some _ :: rest, w => rt_thread_run rest w

/-- The fixed URL of the worker bundle set by `download_p3dpython`. -/
def p3drun_url : String := "http://fewmet/~drose/p3drun.tgz"

/-- `P3DSession::download_p3dpython`: create a download for the worker
bundle; if the local file cannot be opened (`set_filename` fails,
`set_filename_ok = false`), report and return; otherwise start the download
on the instance.  The source's own comment says this "automatically calls
start_p3dpython" once the download completes, but the call at the end of the
function body is commented out, so nothing here (or anywhere else in the
unit, where this private method is visible) ever invokes `start_p3dpython`. -/
def download_p3dpython (iid : Nat) (set_filename_ok : Bool) (w : World) :
    World :=
  if !set_filename_ok then w
  else
    let insts := updInst iid
      (fun i => { i with downloads := i.downloads ++ [p3drun_url] }) w.insts
    { w with insts := insts }

/-- `P3DSession::start_instance`: set the instance's back-reference to this
session and insert its identifier into the registry (under the lock; the
source asserts the instance was unattached, had matching key and version, and
was not already registered — those are preconditions of callers), build a
`start_instance` command embedding the instance's XML description, submit it
via `send_command`, and, when the session is still in `PS_init`, trigger the
worker-bundle download. -/
def start_instance (iid : Nat) (set_filename_ok : Bool) (w : World) : World :=
  let insts := updInst iid (fun i => { i with session := some w.sess.self }) w.insts
  let sess := { w.sess with instances := w.sess.instances ++ [iid] }
  let doc : TiXmlDocument := { cmd := "start_instance", xinstance := some iid }
  let sess := (send_command doc sess).1
  let w1 : World := { sess := sess, insts := insts }
  if w1.sess.python_state = .PS_init then
    download_p3dpython iid set_filename_ok w1
  else w1

/-- `P3DSession::terminate_instance`: build a `terminate_instance` command
carrying the instance's identifier as its `id` attribute and submit it via
`send_command`; then, under the lock, if the instance is still attached to
this session, clear its back-reference and erase it from the registry
(otherwise leave both untouched).  Returns the updated world and the
documents freed by the send.  (The caller always passes a live instance; a
dangling identifier leaves the registry step inert.) -/
def terminate_instance (iid : Nat) (w : World) :
    World × List TiXmlDocument :=
  let doc : TiXmlDocument := { cmd := "terminate_instance", id := some iid }
  let sr := send_command doc w.sess
  match findInst iid w.insts with
  | none => ({ sess := sr.1, insts := w.insts }, sr.2)
  | some i =>
    if i.session = some w.sess.self then
      ({ sess := { sr.1 with instances := sr.1.instances.filter (fun j => j != iid) }
         insts := updInst iid (fun i => { i with session := none }) w.insts },
       sr.2)
    else
      ({ sess := sr.1, insts := w.insts }, sr.2)

/-- One operation a controller (or the reader thread) can perform on a live
session, for reasoning about all reachable session states. -/
inductive Op
  | send (doc : TiXmlDocument)
  | startInst (iid : Nat) (set_filename_ok : Bool)
  | termInst (iid : Nat)
  | spawn (created : Bool) (cenv : String → Option String)
  | readerRun (reads : List (Option TiXmlDocument))

/-- Interpret one operation on the world. -/
def stepOp (w : World) : Op → World
  | .send doc => { w with sess := (send_command doc w.sess).1 }
  | .startInst iid ok => start_instance iid ok w
  | .termInst iid => (terminate_instance iid w).1
  | .spawn created cenv => { w with sess := (start_p3dpython created cenv w.sess).sess }
  | .readerRun reads => (rt_thread_run reads w).1

/-- The world as it stands right after the `P3DSession` constructor runs:
a fresh session over a given pool of instance objects. -/
def initWorld (inst : P3DInstance) (output_filename : String) (self : Nat)
    (insts : List P3DInstance) : World where
  sess := newSession inst output_filename self
  insts := insts

/-- Run a sequence of operations from the freshly constructed world. -/
def runOps (inst : P3DInstance) (output_filename : String) (self : Nat)
    (insts : List P3DInstance) (ops : List Op) : World :=
  ops.foldl stepOp (initWorld inst output_filename self insts)

/-- Submit a sequence of commands through `send_command`, in order. -/
def submitAll (docs : List TiXmlDocument) (s : P3DSession) : P3DSession :=
  docs.foldl (fun s d => (send_command d s).1) s

/-! Concrete sample values, used to evaluate the definitions at specific
inputs. -/

/-- A sample command document. -/
def docEx : TiXmlDocument := { cmd := "start_instance", alloc := 10 }

/-- A second sample command document, with a distinct allocation. -/
def docEx2 : TiXmlDocument := { cmd := "terminate_instance", id := some 1, alloc := 11 }

/-- A sample instance, unattached. -/
def instEx : P3DInstance :=
  { instance_id := 1, session_key := "k", python_version := "cpython" }

/-- A second sample instance, attached to the sample session. -/
def instEx2 : P3DInstance :=
  { instance_id := 2, session_key := "k", python_version := "cpython"
    session := some 7 }

/-- A sample controller environment with only `TEMP` set. -/
def cenvEx : String → Option String :=
  fun n => if n = "TEMP" then some "C:/tmp" else none

/-- A freshly constructed sample session (state `PS_init`). -/
def sessEx : P3DSession := newSession instEx "out.log" 7

/-- The sample session as it stands after a successful worker spawn. -/
def sessRunEx : P3DSession :=
  { sessEx with
    python_state := .PS_running
    started_read_thread := true
    read_thread_continue := true
    pipe_read_open := true
    pipe_write_open := true
    instances := [1, 2] }

/-- The sample session with two commands queued (worker never spawned). -/
def sessQueuedEx : P3DSession := { sessEx with commands := [docEx, docEx2] }

/-- A running sample world: instance 1 and instance 2 both attached. -/
def worldRunEx : World :=
  { sess := sessRunEx
    insts := [{ instEx with session := some 7 }, instEx2] }

/-- A sample operation sequence: one command sent while in `PS_init`, then a
successful spawn. -/
def opsEx : List Op := [Op.send docEx, Op.spawn true cenvEx]

/-! Helper lemmas about the embedded operations. -/

theorem send_command_running (d : TiXmlDocument) (s : P3DSession)
    (h : s.python_state = .PS_running) :
    send_command d s =
      ({ s with pipe_write := s.pipe_write ++ [d], pipe_flushed := true }, [d]) := by
  simp [send_command, h]

theorem send_command_not_running (d : TiXmlDocument) (s : P3DSession)
    (h : ¬ s.python_state = .PS_running) :
    send_command d s = ({ s with commands := s.commands ++ [d] }, []) := by
  simp [send_command, h]

theorem send_command_python_state (d : TiXmlDocument) (s : P3DSession) :
    ((send_command d s).1).python_state = s.python_state := by
  unfold send_command
  split <;> rfl

theorem send_command_commands_running (d : TiXmlDocument) (s : P3DSession)
    (h : s.python_state = .PS_running) :
    ((send_command d s).1).commands = s.commands := by
  rw [send_command_running d s h]

theorem submitAll_init (docs : List TiXmlDocument) (s : P3DSession)
    (h : s.python_state = .PS_init) :
    submitAll docs s = { s with commands := s.commands ++ docs } := by
  induction docs generalizing s with
  | nil => simp [submitAll]
  | cons d t ih =>
    have h1 : (send_command d s).1 = { s with commands := s.commands ++ [d] } := by
      rw [send_command_not_running d s (by rw [h]; simp)]
    show submitAll t (send_command d s).1 = _
    rw [h1, ih _ (by simpa using h)]
    simp

/-- Claim C2: `send_command` either serializes onto the pipe and flushes,
freeing the command (state `PS_running`), or appends it to the command queue
with nothing written and nothing freed (state not `PS_running`). -/
theorem c2_send_or_queue (d : TiXmlDocument) (s : P3DSession) :
    (s.python_state = .PS_running →
      (send_command d s).1.pipe_write = s.pipe_write ++ [d] ∧
      (send_command d s).1.pipe_flushed = true ∧
      (send_command d s).1.commands = s.commands ∧
      (send_command d s).2 = [d]) ∧
    (¬ s.python_state = .PS_running →
      (send_command d s).1.commands = s.commands ++ [d] ∧
      (send_command d s).1.pipe_write = s.pipe_write ∧
      (send_command d s).1.pipe_flushed = s.pipe_flushed ∧
      (send_command d s).2 = []) := by
  constructor
  · intro h
    rw [send_command_running d s h]
    simp
  · intro h
    rw [send_command_not_running d s h]
    simp

/-- Evaluation of claim C2's theorem on a fresh session (queue branch). -/
theorem c2_witness :
    (send_command docEx sessEx).1.commands = sessEx.commands ++ [docEx] ∧
    (send_command docEx sessEx).1.pipe_write = sessEx.pipe_write ∧
    (send_command docEx sessEx).1.pipe_flushed = sessEx.pipe_flushed ∧
    (send_command docEx sessEx).2 = [] :=
  (c2_send_or_queue docEx sessEx).2 (by decide)

/-- Claim C7: the worker environment block contains exactly the allow-listed
variables that are present in the controller environment plus the two
synthesized variables `PATH` and `PYTHONPATH`, both set to the runtime root,
and nothing else. -/
theorem c7_env_isolation (win : Bool) (cenv : String → Option String)
    (root : String) (n v : String) :
    (n, v) ∈ build_env win cenv root ↔
      ((n ∈ keepVars win ∧ cenv n = some v) ∨
       ((n = "PATH" ∨ n = "PYTHONPATH") ∧ v = root)) := by
  simp only [build_env, List.mem_append, List.mem_filterMap, Option.map_eq_some',
    Prod.mk.injEq, List.mem_cons, List.not_mem_nil, or_false]
  constructor
  · rintro (⟨k, hk, v', hv', rfl, rfl⟩ | ⟨rfl, rfl⟩ | ⟨rfl, rfl⟩)
    · exact Or.inl ⟨hk, hv'⟩
    · exact Or.inr ⟨Or.inl rfl, rfl⟩
    · exact Or.inr ⟨Or.inr rfl, rfl⟩
  · rintro (⟨hk, hv⟩ | ⟨rfl | rfl, rfl⟩)
    · exact Or.inl ⟨n, hk, v, hv, rfl, rfl⟩
    · exact Or.inr (Or.inl ⟨rfl, rfl⟩)
    · exact Or.inr (Or.inr ⟨rfl, rfl⟩)

/-- Evaluation of claim C7's theorem: `TEMP` is forwarded from the sample
controller environment. -/
theorem c7_witness :
    ("TEMP", "C:/tmp") ∈ build_env true cenvEx "C:/p3drun" :=
  (c7_env_isolation true cenvEx "C:/p3drun" "TEMP" "C:/tmp").mpr
    (Or.inl ⟨by decide, by decide⟩)

/-- Claim C8: when process creation fails, `start_p3dpython` reports the
failure and returns with the session still in `PS_init`, the command queue
intact and un-drained, and the read thread not started. -/
theorem c8_spawn_failure (cenv : String → Option String) (s : P3DSession)
    (hinit : s.python_state = .PS_init)
    (hst : s.started_read_thread = false) :
    (start_p3dpython false cenv s).sess.python_state = .PS_init ∧
    (start_p3dpython false cenv s).sess.commands = s.commands ∧
    (start_p3dpython false cenv s).sess.started_read_thread = false ∧
    (start_p3dpython false cenv s).freed = [] ∧
    (start_p3dpython false cenv s).log = ["Failed to create process."] := by
  simp [start_p3dpython, hinit, hst]

/-- Evaluation of claim C8's theorem on a fresh session with two queued
commands. -/
theorem c8_witness :
    (start_p3dpython false cenvEx sessQueuedEx).sess.python_state = .PS_init ∧
    (start_p3dpython false cenvEx sessQueuedEx).sess.commands = sessQueuedEx.commands ∧
    (start_p3dpython false cenvEx sessQueuedEx).sess.started_read_thread = false ∧
    (start_p3dpython false cenvEx sessQueuedEx).freed = [] ∧
    (start_p3dpython false cenvEx sessQueuedEx).log = ["Failed to create process."] :=
  c8_spawn_failure cenvEx sessQueuedEx (by decide) (by decide)

/-- Claim C1: every sequence of commands submitted through `send_command`
while the freshly constructed session is in `PS_init` is written to the
outbound pipe by a successful spawn — exactly those commands, in FIFO order,
each once — and the command queue is empty afterwards; moreover each queued
document is freed exactly once as it is drained. -/
theorem c1_queue_drained_fifo (docs : List TiXmlDocument) (inst : P3DInstance)
    (ofn : String) (self : Nat) (cenv : String → Option String) :
    (start_p3dpython true cenv (submitAll docs (newSession inst ofn self))).sess.pipe_write
        = docs ∧
    (start_p3dpython true cenv (submitAll docs (newSession inst ofn self))).sess.pipe_flushed
        = true ∧
    (start_p3dpython true cenv (submitAll docs (newSession inst ofn self))).sess.commands
        = [] ∧
    (start_p3dpython true cenv (submitAll docs (newSession inst ofn self))).freed
        = docs := by
  rw [submitAll_init docs _ (by rfl)]
  refine ⟨?_, ?_, ?_, ?_⟩ <;>
    simp [start_p3dpython, spawn_read_thread, newSession]

/-- Claim C5: tearing down a running session writes an `exit` command and
flushes, closes both pipe halves, waits up to the fixed grace period, and —
when the worker does not exit within it — forcibly terminates the worker
with the fixed non-zero exit status, distinct from a clean (zero) exit. -/
theorem c5_teardown_running (b : Bool) (s : P3DSession)
    (h : s.python_state = .PS_running) :
    (destructor b s).sess.pipe_write = s.pipe_write ++ [{ cmd := "exit" }] ∧
    (destructor b s).sess.pipe_flushed = true ∧
    (destructor b s).sess.pipe_write_open = false ∧
    (destructor b s).sess.pipe_read_open = false ∧
    (destructor b s).wait_limit_ms = grace_period_ms ∧
    (b = false →
      (destructor b s).forced_exit = some forced_exit_code ∧ forced_exit_code ≠ 0) ∧
    (b = true → (destructor b s).forced_exit = none) := by
  cases hst : s.started_read_thread <;> cases b <;>
    simp [destructor, join_read_thread, h, hst, grace_period_ms, forced_exit_code]

/-- Evaluation of claim C5's theorem on a running sample session whose worker
ignores the exit command. -/
theorem c5_witness :
    (destructor false sessRunEx).sess.pipe_write
        = sessRunEx.pipe_write ++ [{ cmd := "exit" }] ∧
    (destructor false sessRunEx).sess.pipe_flushed = true ∧
    (destructor false sessRunEx).sess.pipe_write_open = false ∧
    (destructor false sessRunEx).sess.pipe_read_open = false ∧
    (destructor false sessRunEx).wait_limit_ms = grace_period_ms ∧
    (false = false →
      (destructor false sessRunEx).forced_exit = some forced_exit_code ∧
        forced_exit_code ≠ 0) ∧
    (false = true → (destructor false sessRunEx).forced_exit = none) :=
  c5_teardown_running false sessRunEx (by decide)

/-- Claim C6: tearing down a session whose read thread was never started does
not wait on the read thread (`join_read_thread` returns immediately), frees
every queued command exactly once — the freed documents are exactly the queue
contents, so distinct allocations stay distinct — and clears the queue. -/
theorem c6_teardown_never_started (b : Bool) (s : P3DSession)
    (hrun : ¬ s.python_state = .PS_running)
    (hst : s.started_read_thread = false) :
    (destructor b s).join_waited = false ∧
    (destructor b s).freed = s.commands ∧
    (destructor b s).sess.commands = [] ∧
    ((s.commands.map TiXmlDocument.alloc).Nodup →
      ((destructor b s).freed.map TiXmlDocument.alloc).Nodup) := by
  simp [destructor, join_read_thread, hrun, hst]

/-- Evaluation of claim C6's theorem on a never-spawned session with two
queued commands carrying distinct allocations. -/
theorem c6_witness :
    (destructor true sessQueuedEx).join_waited = false ∧
    (destructor true sessQueuedEx).freed = sessQueuedEx.commands ∧
    (destructor true sessQueuedEx).sess.commands = [] ∧
    ((sessQueuedEx.commands.map TiXmlDocument.alloc).Nodup →
      ((destructor true sessQueuedEx).freed.map TiXmlDocument.alloc).Nodup) :=
  c6_teardown_never_started true sessQueuedEx (by decide) (by decide)

/-! Lemmas about the instance pool: looking up after a mutation that
preserves identifiers. -/

theorem findInst_updInst_self (iid : Nat) (f : P3DInstance → P3DInstance)
    (hf : ∀ i, (f i).instance_id = i.instance_id) (insts : List P3DInstance) :
    findInst iid (updInst iid f insts) = (findInst iid insts).map f := by
  induction insts with
  | nil => rfl
  | cons a t ih =>
    by_cases h : a.instance_id = iid
    · simp [findInst, updInst, List.find?, h, hf]
    · simp only [findInst, updInst, List.map_cons] at ih ⊢
      rw [if_neg (by simpa using h)]
      simp only [List.find?]
      rw [show (a.instance_id == iid) = false by simpa using h]
      exact ih

theorem findInst_updInst_other (iid j : Nat) (hne : j ≠ iid)
    (f : P3DInstance → P3DInstance)
    (hf : ∀ i, (f i).instance_id = i.instance_id) (insts : List P3DInstance) :
    findInst iid (updInst j f insts) = findInst iid insts := by
  induction insts with
  | nil => rfl
  | cons a t ih =>
    simp only [findInst, updInst, List.map_cons] at ih ⊢
    by_cases h : a.instance_id = j
    · rw [if_pos (by simpa using h)]
      simp only [List.find?, hf]
      rw [show (a.instance_id == iid) = false by simp [h, hne]]
      exact ih
    · rw [if_neg (by simpa using h)]
      by_cases h2 : a.instance_id = iid
      · simp [List.find?, h2]
      · simp only [List.find?]
        rw [show (a.instance_id == iid) = false by simpa using h2]
        exact ih

theorem findInst_postStop_self (iid : Nat) (insts : List P3DInstance) :
    findInst iid (postStop iid insts) =
      (findInst iid insts).map
        (fun i => { i with requests := i.requests ++ [.P3D_RT_stop] }) :=
  findInst_updInst_self iid
    (fun i => { i with requests := i.requests ++ [.P3D_RT_stop] })
    (fun _ => rfl) insts

theorem findInst_postStop_other (iid j : Nat) (hne : j ≠ iid)
    (insts : List P3DInstance) :
    findInst iid (postStop j insts) = findInst iid insts :=
  findInst_updInst_other iid j hne
    (fun i => { i with requests := i.requests ++ [.P3D_RT_stop] })
    (fun _ => rfl) insts

theorem findInst_postStopAll_not_mem (ids : List Nat) (iid : Nat)
    (h : iid ∉ ids) (insts : List P3DInstance) :
    findInst iid (postStopAll ids insts) = findInst iid insts := by
  induction ids generalizing insts with
  | nil => rfl
  | cons j t ih =>
    have hj : j ≠ iid := fun e => h (e ▸ List.mem_cons_self j t)
    have ht : iid ∉ t := fun m => h (List.mem_cons_of_mem j m)
    show findInst iid (postStopAll t (postStop j insts)) = _
    rw [ih ht, findInst_postStop_other iid j hj]

theorem findInst_postStopAll_mem (ids : List Nat) (iid : Nat)
    (hnd : ids.Nodup) (hmem : iid ∈ ids) (insts : List P3DInstance) :
    findInst iid (postStopAll ids insts) =
      (findInst iid insts).map
        (fun i => { i with requests := i.requests ++ [.P3D_RT_stop] }) := by
  induction ids generalizing insts with
  | nil => cases hmem
  | cons j t ih =>
    show findInst iid (postStopAll t (postStop j insts)) = _
    by_cases h : iid = j
    · subst h
      have hnt : iid ∉ t := (List.nodup_cons.mp hnd).1
      rw [findInst_postStopAll_not_mem t iid hnt, findInst_postStop_self]
    · have hmt : iid ∈ t := by
        rcases List.mem_cons.mp hmem with he | hm
        · exact absurd he h
        · exact hm
      rw [ih (List.nodup_cons.mp hnd).2 hmt, findInst_postStop_other iid j
        (fun e => h e.symm)]

theorem rt_thread_run_until_fail (goods : List TiXmlDocument)
    (rest : List (Option TiXmlDocument)) (w : World) :
    rt_thread_run (goods.map some ++ none :: rest) w = (rt_terminate w, rest, 1) := by
  induction goods with
  | nil => rfl
  | cons d t ih => simpa [rt_thread_run] using ih

/-- Claim C3: on pipe closure or decode failure the reader loop invokes the
termination notification exactly once and exits, consuming nothing further;
the notification snapshots the registry and posts exactly one `P3D_RT_stop`
request to each instance registered in the snapshot. -/
theorem c3_disconnect_fanout (goods : List TiXmlDocument)
    (rest : List (Option TiXmlDocument)) (w : World) (iid : Nat)
    (i : P3DInstance)
    (hnd : w.sess.instances.Nodup)
    (hmem : iid ∈ w.sess.instances)
    (hfind : findInst iid w.insts = some i) :
    rt_thread_run (goods.map some ++ none :: rest) w = (rt_terminate w, rest, 1) ∧
    findInst iid (rt_terminate w).insts =
      some { i with requests := i.requests ++ [.P3D_RT_stop] } := by
  refine ⟨rt_thread_run_until_fail goods rest w, ?_⟩
  show findInst iid (postStopAll w.sess.instances w.insts) = _
  rw [findInst_postStopAll_mem _ _ hnd hmem, hfind]
  rfl

/-- Evaluation of claim C3's theorem on a running sample world with two
registered instances: instance 1 receives exactly one stop request when the
reader hits end-of-stream after one good document. -/
theorem c3_witness :
    rt_thread_run ([docEx].map some ++ none :: [none]) worldRunEx
        = (rt_terminate worldRunEx, [none], 1) ∧
    findInst 1 (rt_terminate worldRunEx).insts =
      some { ({ instEx with session := some 7 }) with
        requests := ({ instEx with session := some 7 } : P3DInstance).requests
          ++ [.P3D_RT_stop] } :=
  c3_disconnect_fanout [docEx] [none] worldRunEx 1
    { instEx with session := some 7 } (by decide) (by decide) (by decide)

/-- Claim C4: `terminate_instance` always sends (running) or queues (not
running) a `terminate_instance` command whose `id` attribute is the
instance's identifier, and removes the instance from the registry and clears
its back-reference exactly when the instance is still attached to this
session; an instance attached elsewhere (or to none) is untouched by the
removal step. -/
theorem c4_terminate_instance (iid : Nat) (w : World) (i : P3DInstance)
    (hfind : findInst iid w.insts = some i) :
    (w.sess.python_state = .PS_running →
      (terminate_instance iid w).1.sess.pipe_write =
        w.sess.pipe_write ++ [{ cmd := "terminate_instance", id := some iid }]) ∧
    (¬ w.sess.python_state = .PS_running →
      (terminate_instance iid w).1.sess.commands =
        w.sess.commands ++ [{ cmd := "terminate_instance", id := some iid }]) ∧
    (i.session = some w.sess.self →
      iid ∉ (terminate_instance iid w).1.sess.instances ∧
      findInst iid (terminate_instance iid w).1.insts =
        some { i with session := none }) ∧
    (¬ i.session = some w.sess.self →
      (terminate_instance iid w).1.sess.instances = w.sess.instances ∧
      (terminate_instance iid w).1.insts = w.insts) := by
  refine ⟨?_, ?_, ?_, ?_⟩ <;> intro h
  · by_cases ha : i.session = some w.sess.self <;>
      simp [terminate_instance, hfind, ha, send_command_running _ _ h]
  · by_cases ha : i.session = some w.sess.self <;>
      simp [terminate_instance, hfind, ha, send_command_not_running _ _ h]
  · constructor
    · simp [terminate_instance, hfind, h, List.mem_filter]
    · have := findInst_updInst_self iid
        (fun i => { i with session := none }) (fun _ => rfl) w.insts
      simp [terminate_instance, hfind, h, this]
  · constructor
    · unfold terminate_instance
      rw [hfind]
      simp only [h, if_false]
      unfold send_command
      split <;> rfl
    · simp [terminate_instance, hfind, h]

/-- Evaluation of claim C4's theorem: terminating attached instance 1 on the
running sample world queues nothing, writes the command, detaches the
instance and removes it from the registry. -/
theorem c4_witness :
    (worldRunEx.sess.python_state = .PS_running →
      (terminate_instance 1 worldRunEx).1.sess.pipe_write =
        worldRunEx.sess.pipe_write ++ [{ cmd := "terminate_instance", id := some 1 }]) ∧
    (¬ worldRunEx.sess.python_state = .PS_running →
      (terminate_instance 1 worldRunEx).1.sess.commands =
        worldRunEx.sess.commands ++ [{ cmd := "terminate_instance", id := some 1 }]) ∧
    (({ instEx with session := some 7 } : P3DInstance).session
        = some worldRunEx.sess.self →
      1 ∉ (terminate_instance 1 worldRunEx).1.sess.instances ∧
      findInst 1 (terminate_instance 1 worldRunEx).1.insts =
        some { ({ instEx with session := some 7 }) with session := none }) ∧
    (¬ ({ instEx with session := some 7 } : P3DInstance).session
        = some worldRunEx.sess.self →
      (terminate_instance 1 worldRunEx).1.sess.instances = worldRunEx.sess.instances ∧
      (terminate_instance 1 worldRunEx).1.insts = worldRunEx.insts) :=
  c4_terminate_instance 1 worldRunEx { instEx with session := some 7 } (by decide)

/-- Claim C9 (evaluated at the failing input): starting the first instance on
a freshly constructed session (state `PS_init`) does trigger the
worker-bundle download, but the session stays in `PS_init` with the read
thread untouched — nothing invokes `start_p3dpython`, whose only call site in
the unit (inside `download_p3dpython`) is commented out in the source. -/
theorem c9_spawn_never_triggered :
    (findInst 1 (start_instance 1 true (initWorld instEx "out.log" 7 [instEx])).insts).map
        P3DInstance.downloads = some [p3drun_url] ∧
    (start_instance 1 true (initWorld instEx "out.log" 7 [instEx])).sess.python_state
        = .PS_init ∧
    (start_instance 1 true (initWorld instEx "out.log" 7 [instEx])).sess.started_read_thread
        = false ∧
    (start_instance 1 true (initWorld instEx "out.log" 7 [instEx])).sess.read_thread_continue
        = false := by
  decide

/-! Lemmas tracking the session fields across each operation, for the
reachable-state invariant. -/

theorem download_p3dpython_sess (iid : Nat) (ok : Bool) (w : World) :
    (download_p3dpython iid ok w).sess = w.sess := by
  unfold download_p3dpython
  split <;> rfl

theorem start_instance_sess (iid : Nat) (ok : Bool) (w : World) :
    (start_instance iid ok w).sess =
      (send_command { cmd := "start_instance", xinstance := some iid }
        { w.sess with instances := w.sess.instances ++ [iid] }).1 := by
  simp only [start_instance]
  split
  · rw [download_p3dpython_sess]
  · rfl

theorem start_instance_python_state (iid : Nat) (ok : Bool) (w : World) :
    (start_instance iid ok w).sess.python_state = w.sess.python_state := by
  rw [start_instance_sess, send_command_python_state]

theorem start_instance_commands_running (iid : Nat) (ok : Bool) (w : World)
    (h : w.sess.python_state = .PS_running) :
    (start_instance iid ok w).sess.commands = w.sess.commands := by
  rw [start_instance_sess, send_command_commands_running _ _ (by simpa using h)]

theorem terminate_instance_python_state (iid : Nat) (w : World) :
    ((terminate_instance iid w).1).sess.python_state = w.sess.python_state := by
  have hsc := send_command_python_state
    { cmd := "terminate_instance", id := some iid } w.sess
  cases hf : findInst iid w.insts with
  | none => simpa [terminate_instance, hf] using hsc
  | some i =>
    by_cases ha : i.session = some w.sess.self <;>
      simpa [terminate_instance, hf, ha] using hsc

theorem terminate_instance_commands_running (iid : Nat) (w : World)
    (h : w.sess.python_state = .PS_running) :
    ((terminate_instance iid w).1).sess.commands = w.sess.commands := by
  cases hf : findInst iid w.insts with
  | none => simp [terminate_instance, hf, send_command_running _ _ h]
  | some i =>
    by_cases ha : i.session = some w.sess.self <;>
      simp [terminate_instance, hf, ha, send_command_running _ _ h]

theorem start_p3dpython_fail_sess (cenv : String → Option String)
    (s : P3DSession) :
    (start_p3dpython false cenv s).sess =
      { s with pipe_read_open := true, pipe_write_open := true } := by
  simp [start_p3dpython]

theorem start_p3dpython_success_commands (cenv : String → Option String)
    (s : P3DSession) :
    (start_p3dpython true cenv s).sess.commands = [] := by
  simp [start_p3dpython, spawn_read_thread]

theorem rt_thread_run_sess (reads : List (Option TiXmlDocument)) (w : World) :
    ((rt_thread_run reads w).1).sess = w.sess := by
  induction reads generalizing w with
  | nil => rfl
  | cons r t ih =>
    cases r with
    | none => rfl
    | some d => exact ih w

theorem stepOp_preserves_inv (w : World) (op : Op)
    (h : w.sess.python_state = .PS_running → w.sess.commands = []) :
    (stepOp w op).sess.python_state = .PS_running →
      (stepOp w op).sess.commands = [] := by
  cases op with
  | send d =>
    intro hrun
    have hst : w.sess.python_state = .PS_running := by
      have hp := send_command_python_state d w.sess
      simpa [stepOp, hp] using hrun
    simp [stepOp, send_command_commands_running d w.sess hst, h hst]
  | startInst iid ok =>
    intro hrun
    have hst : w.sess.python_state = .PS_running := by
      have hp := start_instance_python_state iid ok w
      simpa [stepOp, hp] using hrun
    simp [stepOp, start_instance_commands_running iid ok w hst, h hst]
  | termInst iid =>
    intro hrun
    have hst : w.sess.python_state = .PS_running := by
      have hp := terminate_instance_python_state iid w
      simpa [stepOp, hp] using hrun
    simp [stepOp, terminate_instance_commands_running iid w hst, h hst]
  | spawn created cenv =>
    cases created with
    | false =>
      intro hrun
      have hst : w.sess.python_state = .PS_running := by
        have hp := start_p3dpython_fail_sess cenv w.sess
        simpa [stepOp, hp] using hrun
      simp [stepOp, start_p3dpython_fail_sess, h hst]
    | true =>
      intro _
      simp [stepOp, start_p3dpython_success_commands]
  | readerRun reads =>
    intro hrun
    have hp := rt_thread_run_sess reads w
    have hst : w.sess.python_state = .PS_running := by
      simpa [stepOp, hp] using hrun
    simp [stepOp, hp, h hst]

/-- Claim C10: in every session state reachable by any sequence of
operations from a fresh session, being in `PS_running` implies the command
queue is empty — so the destructor's sweep of the queue frees nothing on a
session whose worker is running. -/
theorem c10_running_queue_empty (inst : P3DInstance) (ofn : String)
    (self : Nat) (insts : List P3DInstance) (ops : List Op) (b : Bool)
    (hrun : (runOps inst ofn self insts ops).sess.python_state = .PS_running) :
    (runOps inst ofn self insts ops).sess.commands = [] ∧
    (destructor b (runOps inst ofn self insts ops).sess).freed = [] := by
  have main : ∀ (l : List Op) (w : World),
      (w.sess.python_state = .PS_running → w.sess.commands = []) →
      ((l.foldl stepOp w).sess.python_state = .PS_running →
        (l.foldl stepOp w).sess.commands = []) := by
    intro l
    induction l with
    | nil => intro w hw; exact hw
    | cons op t ih => intro w hw; exact ih _ (stepOp_preserves_inv w op hw)
  have hc : (runOps inst ofn self insts ops).sess.commands = [] :=
    main ops (initWorld inst ofn self insts) (fun _ => rfl) hrun
  refine ⟨hc, ?_⟩
  simp [destructor, hrun, hc]

/-- Evaluation of claim C10's theorem: after one queued command and a
successful spawn, the queue is empty and teardown frees nothing. -/
theorem c10_witness :
    (runOps instEx "out.log" 7 [] opsEx).sess.commands = [] ∧
    (destructor true (runOps instEx "out.log" 7 [] opsEx).sess).freed = [] :=
  c10_running_queue_empty instEx "out.log" 7 [] opsEx true (by decide)

end P3D
